import Mathlib

/-!
Shallow embedding of `colossalai/logging/logger.py` (class `DistributedLogger`).

The module wraps Python's `logging` library.  We embed:
* the rank-resolution collaborator `colossalai.core.global_context`
  (not part of this file's source tree, so modelled from the spec),
* the underlying `logging.Logger` state (level, handler list, propagate flag),
* the registry of `DistributedLogger` instances (`__instances` dict),
* the operations `get_instance`, `__init__`, `set_level`, `log_to_file`,
  `_log`, and the leveled wrappers `info`/`warning`/`debug`/`error`.

Effects are made explicit: emission and flushing become a list of
`LogAction`s, filesystem effects become a list of `FsOp`s, and Python
exceptions become `Except PyError`.  An `Except.error` result models a raised
exception: since the embedding is state-passing, an error result returns no
new state, which models "the call raises and leaves all state unchanged".
-/

namespace ColossalLog

/-- Modelled from the spec: the group identifiers ("parallel modes") used by
the rank-resolution collaborator.  `colossalai/context/parallel_mode.py` is
not under the source tree; the spec describes a tag distinguishing parallel
dimensions such as GLOBAL, data-parallel, tensor-parallel, pipeline-parallel. -/
inductive ParallelMode where
  | GLOBAL
  | DATA
  | TENSOR
  | PIPELINE
deriving DecidableEq

/-- The exceptions the embedded code can raise. -/
inductive PyError where
  | assertionError
  | notInitialized
  | fileNotFoundError
  | indexError
  | duplicateLogger
deriving DecidableEq

/-- Modelled from the spec: the rank-resolution collaborator
(`colossalai.core.global_context`, not under the source tree).  Per the spec
it offers, per group, either this process's rank or a "not initialized"
signal, plus a global-rank accessor; `local_ranks m = none` means group `m`
is not initialized on this process. -/
structure GlobalContext where
  local_ranks : ParallelMode → Option Nat
  global_rank : Nat

/-- Modelled from the spec: `isGroupInitialized(group) -> bool`. -/
def GlobalContext.is_initialized (ctx : GlobalContext) (m : ParallelMode) : Bool :=
  (ctx.local_ranks m).isSome

/-- Modelled from the spec: `getRank(group) -> int`, which on a group that is
not initialized yields the not-initialized signal (an exception) rather than
a rank. -/
def GlobalContext.get_local_rank (ctx : GlobalContext) (m : ParallelMode) :
    Except PyError Nat :=
  match ctx.local_ranks m with
  | some r => Except.ok r
  | none => Except.error PyError.notInitialized

/-- Modelled from the spec: `getGlobalRank() -> int`. -/
def GlobalContext.get_global_rank (ctx : GlobalContext) : Nat :=
  ctx.global_rank

/-- The four logging severities the module works with, with their numeric
values from Python's `logging`. -/
inductive LogLevel where
  | DEBUG
  | INFO
  | WARNING
  | ERROR
deriving DecidableEq

def LogLevel.toNat : LogLevel → Nat
  | LogLevel.DEBUG => 10
  | LogLevel.INFO => 20
  | LogLevel.WARNING => 30
  | LogLevel.ERROR => 40

/-- The list literal in `_check_valid_logging_level`. -/
def valid_logging_levels : List String :=
  ["INFO", "DEBUG", "WARNING", "ERROR"]

/-- `assert level in ["INFO", "DEBUG", "WARNING", "ERROR"]`; a failed Python
`assert` raises `AssertionError`. -/
def _check_valid_logging_level (level : String) : Except PyError Unit :=
  if level ∈ valid_logging_levels then Except.ok ()
  else Except.error PyError.assertionError

/-- `getattr(logging, level)` for the four valid level strings. -/
def logging_getattr (level : String) : LogLevel :=
  if level = "DEBUG" then LogLevel.DEBUG
  else if level = "INFO" then LogLevel.INFO
  else if level = "WARNING" then LogLevel.WARNING
  else LogLevel.ERROR

/-- A `logging.Formatter(fmt, datefmt=...)`. -/
structure Formatter where
  fmt : String
  datefmt : String
deriving DecidableEq

/-- The module-level `_FORMAT` string. -/
def _FORMAT : String :=
  "%(name)s - %(levelname)s - %(asctime)s - %(message)s"

/-- The formatter built in `__init__` for pre-existing handlers. -/
def init_formatter : Formatter :=
  { fmt := _FORMAT, datefmt := "%Y-%m-%d %H:%M:%S" }

/-- The formatter built in `log_to_file` (shared by the file handler and the
stream handler added there). -/
def file_formatter : Formatter :=
  { fmt := _FORMAT, datefmt := "%Y-%m-%d,%H:%M:%S" }

/-- A handler attached to the underlying `logging.Logger`: either a
`logging.FileHandler(path, mode)` or a `logging.StreamHandler()`, each with
its own threshold level and formatter. -/
inductive Handler where
  | file (path : String) (mode : String) (level : LogLevel) (formatter : Formatter)
  | stream (level : LogLevel) (formatter : Formatter)
deriving DecidableEq

def Handler.isStream : Handler → Bool
  | Handler.stream _ _ => true
  | Handler.file _ _ _ _ => false

def Handler.setFormatter (h : Handler) (f : Formatter) : Handler :=
  match h with
  | Handler.file p m lvl _ => Handler.file p m lvl f
  | Handler.stream lvl _ => Handler.stream lvl f

/-- The state of the underlying `logging.Logger` that the source reads or
writes: its name, its effective minimum severity (a fresh named logger
delegates to the root logger, which `basicConfig` set to INFO), its own
handler list (empty for a fresh named logger), and its `propagate` flag
(true for a fresh logger). -/
structure PyLogger where
  name : String
  level : LogLevel
  handlers : List Handler
  propagate : Bool
deriving DecidableEq

/-- The state `logging.getLogger(name)` yields for a fresh name. -/
def fresh_pylogger (name : String) : PyLogger :=
  { name := name, level := LogLevel.INFO, handlers := [], propagate := true }

/-- `os.path.dirname` for POSIX paths: everything up to the final slash,
with trailing slashes stripped unless the head is all slashes. -/
def osp_dirname (p : String) : String :=
  let cs := p.toList
  match cs.reverse.findIdx? (fun c => c == '/') with
  | none => ""
  | some k =>
    let head := cs.take (cs.length - k)
    if head.all (fun c => c == '/') then String.mk head
    else String.mk ((head.reverse.dropWhile (fun c => c == '/')).reverse)

/-- `os.path.basename` for POSIX paths: everything after the final slash. -/
def osp_basename (p : String) : String :=
  String.mk ((p.toList.reverse.takeWhile (fun c => c != '/')).reverse)

/-- A filesystem effect performed by `log_to_file`. -/
inductive FsOp where
  | makedirs (dir : String)
  | openFile (path : String) (mode : String)
deriving DecidableEq

/-- `os.makedirs(dir, exist_ok=True)`: raises `FileNotFoundError` when `dir`
is the empty string (`exist_ok` does not rescue that case); otherwise the
directory is created (or already exists). -/
def os_makedirs (dir : String) : Except PyError FsOp :=
  if dir = "" then Except.error PyError.fileNotFoundError
  else Except.ok (FsOp.makedirs dir)

/-- An observable action of a leveled logging call: a record emitted through
the underlying logger, or the `flush` of the handlers. -/
inductive LogAction where
  | emitted (level : LogLevel) (message : String)
  | flushed
deriving DecidableEq

/-- `getattr(self._logger, level)(message)`: the underlying leveled logger
emits the record exactly when the message severity reaches the logger's
effective minimum level. -/
def PyLogger.log_call (lg : PyLogger) (lvl : LogLevel) (message : String) :
    List LogAction :=
  if lg.level.toNat ≤ lvl.toNat then [LogAction.emitted lvl message] else []

namespace DistributedLogger

/-- `DistributedLogger.flush`: flushes every attached handler; observable as
one flush action. -/
def flush (_lg : PyLogger) : List LogAction :=
  [LogAction.flushed]

/-- `DistributedLogger._log(level, message, parallel_mode, ranks)`. -/
def _log (ctx : GlobalContext) (lg : PyLogger) (lvl : LogLevel)
    (message : String) (parallel_mode : ParallelMode)
    (ranks : Option (List Nat)) : Except PyError (List LogAction) :=
  match ranks with
  | none => Except.ok (lg.log_call lvl message ++ flush lg)
  | some rs =>
    match ctx.get_local_rank parallel_mode with
    | Except.error e => Except.error e
    | Except.ok local_rank =>
      if local_rank ∈ rs then Except.ok (lg.log_call lvl message ++ flush lg)
      else Except.ok []

/-- A frame of `inspect.stack()`: source file, line number, function name. -/
structure FrameInfo where
  filename : String
  lineno : Nat
  function : String
deriving DecidableEq

/-- `DistributedLogger.__get_call_info`: reads `stack[2]`; a stack with fewer
than three frames makes the subscript raise `IndexError`. -/
def get_call_info (stack : List FrameInfo) :
    Except PyError (String × Nat × String) :=
  match stack[2]? with
  | some fr => Except.ok (osp_basename fr.filename, fr.lineno, fr.function)
  | none => Except.error PyError.indexError

/-- The string `"[fn, ln, func] message"` built by the leveled wrappers. -/
def format_call_info (fn : String) (ln : Nat) (func : String)
    (message : String) : String :=
  "[" ++ fn ++ ", " ++ toString ln ++ ", " ++ func ++ "] " ++ message

/-- `DistributedLogger.info`: prepend the caller tag, then `_log`.  The call
stack is an explicit argument of the embedding. -/
def info (ctx : GlobalContext) (lg : PyLogger) (stack : List FrameInfo)
    (message : String) (parallel_mode : ParallelMode)
    (ranks : Option (List Nat)) : Except PyError (List LogAction) :=
  match get_call_info stack with
  | Except.error e => Except.error e
  | Except.ok ci =>
    _log ctx lg LogLevel.INFO (format_call_info ci.1 ci.2.1 ci.2.2 message)
      parallel_mode ranks

/-- `DistributedLogger.warning`. -/
def warning (ctx : GlobalContext) (lg : PyLogger) (stack : List FrameInfo)
    (message : String) (parallel_mode : ParallelMode)
    (ranks : Option (List Nat)) : Except PyError (List LogAction) :=
  match get_call_info stack with
  | Except.error e => Except.error e
  | Except.ok ci =>
    _log ctx lg LogLevel.WARNING (format_call_info ci.1 ci.2.1 ci.2.2 message)
      parallel_mode ranks

/-- `DistributedLogger.debug`. -/
def debug (ctx : GlobalContext) (lg : PyLogger) (stack : List FrameInfo)
    (message : String) (parallel_mode : ParallelMode)
    (ranks : Option (List Nat)) : Except PyError (List LogAction) :=
  match get_call_info stack with
  | Except.error e => Except.error e
  | Except.ok ci =>
    _log ctx lg LogLevel.DEBUG (format_call_info ci.1 ci.2.1 ci.2.2 message)
      parallel_mode ranks

/-- `DistributedLogger.error`. -/
def error (ctx : GlobalContext) (lg : PyLogger) (stack : List FrameInfo)
    (message : String) (parallel_mode : ParallelMode)
    (ranks : Option (List Nat)) : Except PyError (List LogAction) :=
  match get_call_info stack with
  | Except.error e => Except.error e
  | Except.ok ci =>
    _log ctx lg LogLevel.ERROR (format_call_info ci.1 ci.2.1 ci.2.2 message)
      parallel_mode ranks

/-- `DistributedLogger.set_level(level)`: validate the string, then set the
underlying logger's level to `getattr(logging, level)`. -/
def set_level (lg : PyLogger) (level : String) : Except PyError PyLogger :=
  match _check_valid_logging_level level with
  | Except.error e => Except.error e
  | Except.ok _ =>
    Except.ok { lg with level := logging_getattr level }

/-- `DistributedLogger.log_to_file(path, mode="a", level="INFO", suffix=None)`.
Validates the level, resolves the global rank (treating a not-initialized
GLOBAL group as rank 0), returns silently on nonzero ranks, and otherwise
creates the log directory and file, attaches a file handler at the requested
level, disables propagation, and attaches a stream handler at INFO.  The
`suffix` argument is accepted and never used, as in the source.  Paths are
strings in the embedding (`Path` arguments are converted to `str` by the
source before use). -/
def log_to_file (ctx : GlobalContext) (lg : PyLogger) (path : String)
    (mode : String) (level : String) (_suffix : Option String) :
    Except PyError (PyLogger × List FsOp) :=
  match _check_valid_logging_level level with
  | Except.error e => Except.error e
  | Except.ok _ =>
    let rank : Nat :=
      if ctx.is_initialized ParallelMode.GLOBAL then ctx.get_global_rank else 0
    if rank ≠ 0 then Except.ok (lg, [])
    else
      match os_makedirs (osp_dirname path) with
      | Except.error e => Except.error e
      | Except.ok mk =>
        let file_handler :=
          Handler.file path mode (logging_getattr level) file_formatter
        let lg2 :=
          { lg with propagate := false,
                    handlers := lg.handlers ++ [file_handler] }
        let stream_handler := Handler.stream LogLevel.INFO file_formatter
        let lg3 := { lg2 with handlers := lg2.handlers ++ [stream_handler] }
        Except.ok (lg3, [mk, FsOp.openFile path mode])

end DistributedLogger

/-- A `DistributedLogger` instance: its `_name` and its `_logger`. -/
structure DLogger where
  _name : String
  _logger : PyLogger
deriving DecidableEq

/-- Python-dict lookup on the registry table (keys are logger names, values
are instance identities). -/
def dict_get (tbl : List (String × Nat)) (name : String) : Option Nat :=
  match tbl with
  | [] => none
  | (k, v) :: rest => if name = k then some v else dict_get rest name

/-- The class-level registry `DistributedLogger.__instances` together with
the instances themselves.  An instance's identity (Python reference) is its
index into `loggers`; `table` maps names to identities. -/
structure Instances where
  table : List (String × Nat)
  loggers : List DLogger
deriving DecidableEq

/-- The empty registry at process start. -/
def Instances.empty : Instances :=
  { table := [], loggers := [] }

namespace DistributedLogger

/-- `DistributedLogger.__init__(name)`: raise if the name is already
registered, otherwise build the instance (its fresh underlying logger has no
handlers, so the formatter loop is a no-op embedded via `map`) and register
it.  Returns the registry and the new instance's identity. -/
def init (st : Instances) (name : String) : Except PyError (Instances × Nat) :=
  if (dict_get st.table name).isSome then
    Except.error PyError.duplicateLogger
  else
    let base := fresh_pylogger name
    let lg :=
      { base with
          handlers := base.handlers.map (fun h => h.setFormatter init_formatter) }
    let id := st.loggers.length
    Except.ok
      ({ table := (name, id) :: st.table,
         loggers := st.loggers ++ [{ _name := name, _logger := lg }] }, id)

/-- `DistributedLogger.get_instance(name)`: return the registered instance
when present, otherwise construct (and thereby register) one. -/
def get_instance (st : Instances) (name : String) :
    Except PyError (Instances × Nat) :=
  match dict_get st.table name with
  | some id => Except.ok (st, id)
  | none => init st name

/-- The registry state after one `get_instance` call (which never raises). -/
def run_get_instance (st : Instances) (name : String) : Instances :=
  match get_instance st name with
  | Except.ok (st2, _) => st2
  | Except.error _ => st

/-- The registry state after a sequence of interleaved `get_instance`
calls. -/
def run_get_instances (st : Instances) (names : List String) : Instances :=
  names.foldl run_get_instance st

end DistributedLogger

/-! Concrete fixtures used to evaluate the development on closed inputs. -/

/-- A context in which no group is initialized. -/
def ctx_uninit : GlobalContext :=
  { local_ranks := fun _ => none, global_rank := 0 }

/-- A context in which every group is initialized with local rank `r` and
the global rank is `g`. -/
def ctx_rank (g : Nat) (r : Nat) : GlobalContext :=
  { local_ranks := fun _ => some r, global_rank := g }

/-- A fresh underlying logger named "test". -/
def lg0 : PyLogger := fresh_pylogger "test"

/-- A three-frame call stack. -/
def stack3 : List DistributedLogger.FrameInfo :=
  [{ filename := "a.py", lineno := 1, function := "f" },
   { filename := "b.py", lineno := 2, function := "g" },
   { filename := "src/c.py", lineno := 3, function := "h" }]

/-- A registry holding one logger named "a" with identity 0. -/
def st_a : Instances :=
  { table := [("a", 0)],
    loggers := [{ _name := "a", _logger := fresh_pylogger "a" }] }

/-! Helper lemmas shared by the claim theorems. -/

theorem dict_get_cons_self (tbl : List (String × Nat)) (n : String) (id : Nat) :
    dict_get ((n, id) :: tbl) n = some id := by
  simp [dict_get]

theorem dict_get_cons_ne (tbl : List (String × Nat)) (m n : String) (id : Nat)
    (h : n ≠ m) : dict_get ((m, id) :: tbl) n = dict_get tbl n := by
  simp [dict_get, h]

theorem get_instance_of_mem (st : Instances) (n : String) (id : Nat)
    (h : dict_get st.table n = some id) :
    DistributedLogger.get_instance st n = Except.ok (st, id) := by
  unfold DistributedLogger.get_instance
  rw [h]

theorem get_instance_registers (st : Instances) (n : String) :
    ∃ st1 id, DistributedLogger.get_instance st n = Except.ok (st1, id) ∧
      dict_get st1.table n = some id := by
  unfold DistributedLogger.get_instance
  cases h : dict_get st.table n with
  | some id => exact ⟨st, id, rfl, h⟩
  | none =>
    unfold DistributedLogger.init
    rw [h]
    exact ⟨_, _, rfl, dict_get_cons_self _ _ _⟩

theorem dict_get_run_preserved (st : Instances) (m n : String) (id : Nat)
    (h : dict_get st.table n = some id) :
    dict_get (DistributedLogger.run_get_instance st m).table n = some id := by
  unfold DistributedLogger.run_get_instance DistributedLogger.get_instance
  cases hm : dict_get st.table m with
  | some j => exact h
  | none =>
    unfold DistributedLogger.init
    rw [hm]
    by_cases hnm : n = m
    · rw [hnm, hm] at h
      cases h
    · simpa [dict_get, hnm] using h

theorem dict_get_runs_preserved (names : List String) (st : Instances)
    (n : String) (id : Nat) (h : dict_get st.table n = some id) :
    dict_get (DistributedLogger.run_get_instances st names).table n = some id := by
  induction names generalizing st with
  | nil => exact h
  | cons m ms ih =>
    simp only [DistributedLogger.run_get_instances, List.foldl] at *
    exact ih (DistributedLogger.run_get_instance st m)
      (dict_get_run_preserved st m n id h)

theorem log_to_file_rank0_eq (ctx : GlobalContext) (lg : PyLogger)
    (path mode level : String) (suffix : Option String)
    (hlvl : level ∈ valid_logging_levels)
    (hr : ctx.is_initialized ParallelMode.GLOBAL = false ∨
      ctx.get_global_rank = 0)
    (hp : osp_dirname path ≠ "") :
    DistributedLogger.log_to_file ctx lg path mode level suffix =
      Except.ok
        ({ lg with
             propagate := false,
             handlers := lg.handlers ++
               [Handler.file path mode (logging_getattr level) file_formatter,
                Handler.stream LogLevel.INFO file_formatter] },
         [FsOp.makedirs (osp_dirname path), FsOp.openFile path mode]) := by
  have hrank :
      (if ctx.is_initialized ParallelMode.GLOBAL then ctx.get_global_rank
       else 0) = 0 := by
    rcases hr with h | h
    · rw [h]
      simp
    · by_cases hb : ctx.is_initialized ParallelMode.GLOBAL
      · rw [if_pos hb]
        exact h
      · rw [if_neg hb]
  simp [DistributedLogger.log_to_file, _check_valid_logging_level, hlvl, hrank,
        os_makedirs, hp]

theorem log_to_file_nonzero_eq (ctx : GlobalContext) (lg : PyLogger)
    (path mode level : String) (suffix : Option String)
    (hlvl : level ∈ valid_logging_levels)
    (hi : ctx.is_initialized ParallelMode.GLOBAL = true)
    (hnz : ctx.get_global_rank ≠ 0) :
    DistributedLogger.log_to_file ctx lg path mode level suffix =
      Except.ok (lg, []) := by
  simp [DistributedLogger.log_to_file, _check_valid_logging_level, hlvl, hi, hnz]

/-! Claim theorems. -/

/-- C1 counterexample: with the GLOBAL group not initialized and a non-empty
allowed-rank set containing 0, the leveled call `info` does not treat the
rank as 0 and emit — it fails with the collaborator's not-initialized
error, contradicting the claim that the call emits and does not fail. -/
theorem c1_counterexample :
    DistributedLogger.info ctx_uninit lg0 stack3 "m" ParallelMode.GLOBAL
      (some [0]) = Except.error PyError.notInitialized := rfl

/-- C1 (amended): for every leveled logging call made with `ranks` set, if
the rank-resolution collaborator reports the given group as not initialized,
the call does not fall back to rank 0: the not-initialized signal raised by
`get_local_rank` propagates out of `_log` and the call fails without
emitting anything.  The treat-as-rank-0 fallback exists only in
`log_to_file`, not in the leveled logging path. -/
theorem c1_log_not_init_propagates (ctx : GlobalContext) (lg : PyLogger)
    (lvl : LogLevel) (message : String) (pm : ParallelMode) (rs : List Nat)
    (h : ctx.local_ranks pm = none) :
    DistributedLogger._log ctx lg lvl message pm (some rs) =
      Except.error PyError.notInitialized := by
  simp [DistributedLogger._log, GlobalContext.get_local_rank, h]

/-- C1 witness: the amended statement evaluated on a concrete uninitialized
context. -/
theorem c1_witness :
    DistributedLogger._log ctx_uninit lg0 LogLevel.WARNING "w"
      ParallelMode.DATA (some [0, 1]) =
      Except.error PyError.notInitialized :=
  c1_log_not_init_propagates ctx_uninit lg0 LogLevel.WARNING "w"
    ParallelMode.DATA [0, 1] rfl

/-- C2: in `_log`, when `ranks` is `None` the message is emitted (and the
handlers flushed) unconditionally; when `ranks` is set and the process's
rank in the group resolves to `r`, the message is emitted (and the handlers
flushed) exactly when `r` is a member of `ranks`, and when it is not the
call returns with no action at all — no emission, no error, and no flush. -/
theorem c2_rank_filter (ctx : GlobalContext) (lg : PyLogger) (lvl : LogLevel)
    (message : String) (pm : ParallelMode) (rs : List Nat) (r : Nat)
    (hr : ctx.local_ranks pm = some r)
    (hsev : lg.level.toNat ≤ lvl.toNat) :
    DistributedLogger._log ctx lg lvl message pm none =
      Except.ok [LogAction.emitted lvl message, LogAction.flushed] ∧
    (r ∈ rs →
      DistributedLogger._log ctx lg lvl message pm (some rs) =
        Except.ok [LogAction.emitted lvl message, LogAction.flushed]) ∧
    (r ∉ rs →
      DistributedLogger._log ctx lg lvl message pm (some rs) =
        Except.ok []) := by
  refine ⟨?_, ?_, ?_⟩
  · simp [DistributedLogger._log, DistributedLogger.flush, PyLogger.log_call,
          hsev]
  · intro hm
    simp [DistributedLogger._log, DistributedLogger.flush, PyLogger.log_call,
          GlobalContext.get_local_rank, hr, hm, hsev]
  · intro hm
    simp [DistributedLogger._log, GlobalContext.get_local_rank, hr, hm]

/-- C2 witness: rank 1 with allowed set `[0, 2]` is suppressed with no
action. -/
theorem c2_witness :
    DistributedLogger._log (ctx_rank 0 1) lg0 LogLevel.INFO "m"
      ParallelMode.GLOBAL (some [0, 2]) = Except.ok [] :=
  (c2_rank_filter (ctx_rank 0 1) lg0 LogLevel.INFO "m" ParallelMode.GLOBAL
    [0, 2] 1 rfl (by decide)).2.2 (by decide)

/-- C3: for every registry state and name, `get_instance` succeeds and
returns some identity `id`; after any interleaving of further `get_instance`
calls on arbitrary names, the registry still maps the name to `id`, and a
second `get_instance` call returns that very instance (identity equality)
without changing the registry. -/
theorem c3_get_instance_identical (st : Instances) (n : String)
    (others : List String) :
    ∃ st1 id,
      DistributedLogger.get_instance st n = Except.ok (st1, id) ∧
      dict_get (DistributedLogger.run_get_instances st1 others).table n =
        some id ∧
      DistributedLogger.get_instance
          (DistributedLogger.run_get_instances st1 others) n =
        Except.ok (DistributedLogger.run_get_instances st1 others, id) := by
  obtain ⟨st1, id, hget, hmem⟩ := get_instance_registers st n
  have hmem2 := dict_get_runs_preserved others st1 n id hmem
  exact ⟨st1, id, hget, hmem2, get_instance_of_mem _ n id hmem2⟩

/-- C4: directly constructing a second logger under a name already present
in the registry raises immediately.  In this state-passing embedding an
error result carries no new registry, so the registry seen by the caller is
the unchanged input state, which still maps the name to the original
instance. -/
theorem c4_duplicate_ctor_fails (st : Instances) (n : String) (id : Nat)
    (h : dict_get st.table n = some id) :
    DistributedLogger.init st n = Except.error PyError.duplicateLogger := by
  simp [DistributedLogger.init, h]

/-- C4 witness: constructing "a" a second time over a registry already
holding "a". -/
theorem c4_witness :
    DistributedLogger.init st_a "a" = Except.error PyError.duplicateLogger :=
  c4_duplicate_ctor_fails st_a "a" 0 (by decide)

/-- C5: `set_level` fails with the assertion error on every string outside
INFO/DEBUG/WARNING/ERROR — leaving the logger state unchanged, since the
error result of the state-passing embedding returns no new logger — and on
every string inside that set it succeeds, changing only the level field. -/
theorem c5_set_level (lg : PyLogger) (s : String) :
    (s ∉ valid_logging_levels →
      DistributedLogger.set_level lg s =
        Except.error PyError.assertionError) ∧
    (s ∈ valid_logging_levels →
      DistributedLogger.set_level lg s =
        Except.ok { lg with level := logging_getattr s }) := by
  refine ⟨?_, ?_⟩
  · intro h
    simp [DistributedLogger.set_level, _check_valid_logging_level, h]
  · intro h
    simp [DistributedLogger.set_level, _check_valid_logging_level, h]

/-- C5 witness: "TRACE" fails, "INFO" succeeds, on a fresh logger. -/
theorem c5_witness :
    DistributedLogger.set_level lg0 "TRACE" =
      Except.error PyError.assertionError ∧
    DistributedLogger.set_level lg0 "INFO" =
      Except.ok { lg0 with level := logging_getattr "INFO" } :=
  ⟨(c5_set_level lg0 "TRACE").1 (by decide),
   (c5_set_level lg0 "INFO").2 (by decide)⟩

/-- C6: with a valid level, `log_to_file` on a process whose global rank is
0 — or for which the GLOBAL group is not initialized, which is treated as
rank 0 — creates the log directory and file and attaches the handlers
(provided the path has a directory component, the case in which the
filesystem calls succeed); on every process with nonzero global rank the
call returns silently with the logger unchanged and no filesystem effect. -/
theorem c6_log_to_file_rank_gate (ctx : GlobalContext) (lg : PyLogger)
    (path mode level : String) (suffix : Option String)
    (hlvl : level ∈ valid_logging_levels) :
    ((ctx.is_initialized ParallelMode.GLOBAL = false ∨
        ctx.get_global_rank = 0) →
      osp_dirname path ≠ "" →
      DistributedLogger.log_to_file ctx lg path mode level suffix =
        Except.ok
          ({ lg with
               propagate := false,
               handlers := lg.handlers ++
                 [Handler.file path mode (logging_getattr level)
                    file_formatter,
                  Handler.stream LogLevel.INFO file_formatter] },
           [FsOp.makedirs (osp_dirname path), FsOp.openFile path mode])) ∧
    (ctx.is_initialized ParallelMode.GLOBAL = true →
      ctx.get_global_rank ≠ 0 →
      DistributedLogger.log_to_file ctx lg path mode level suffix =
        Except.ok (lg, [])) := by
  refine ⟨?_, ?_⟩
  · intro hr hp
    exact log_to_file_rank0_eq ctx lg path mode level suffix hlvl hr hp
  · intro hi hnz
    exact log_to_file_nonzero_eq ctx lg path mode level suffix hlvl hi hnz

/-- C6 witness: a process with global rank 1 is a silent no-op, a process
with the GLOBAL group not initialized creates the file and the handlers. -/
theorem c6_witness :
    DistributedLogger.log_to_file (ctx_rank 1 0) lg0 "d/log.txt" "a" "INFO"
      none = Except.ok (lg0, []) ∧
    DistributedLogger.log_to_file ctx_uninit lg0 "d/log.txt" "a" "INFO"
      none =
      Except.ok
        ({ lg0 with
             propagate := false,
             handlers := lg0.handlers ++
               [Handler.file "d/log.txt" "a" (logging_getattr "INFO")
                  file_formatter,
                Handler.stream LogLevel.INFO file_formatter] },
         [FsOp.makedirs (osp_dirname "d/log.txt"),
          FsOp.openFile "d/log.txt" "a"]) :=
  ⟨(c6_log_to_file_rank_gate (ctx_rank 1 0) lg0 "d/log.txt" "a" "INFO" none
      (by decide)).2 rfl (by decide),
   (c6_log_to_file_rank_gate ctx_uninit lg0 "d/log.txt" "a" "INFO" none
      (by decide)).1 (Or.inl rfl) (by decide)⟩

/-- C7: a successful rank-0-path `log_to_file` call appends exactly one file
handler at the requested level and one stream handler at INFO to the handler
list and sets `propagate` to false; a second such call appends the same pair
again, so starting from a logger with no handlers the logger ends up with
two stream (console) handlers. -/
theorem c7_handler_append (ctx : GlobalContext) (lg : PyLogger)
    (path mode level : String) (suffix : Option String)
    (hlvl : level ∈ valid_logging_levels)
    (hr : ctx.is_initialized ParallelMode.GLOBAL = false ∨
      ctx.get_global_rank = 0)
    (hp : osp_dirname path ≠ "") :
    DistributedLogger.log_to_file ctx lg path mode level suffix =
      Except.ok
        ({ lg with
             propagate := false,
             handlers := lg.handlers ++
               [Handler.file path mode (logging_getattr level) file_formatter,
                Handler.stream LogLevel.INFO file_formatter] },
         [FsOp.makedirs (osp_dirname path), FsOp.openFile path mode]) ∧
    DistributedLogger.log_to_file ctx
        { lg with
            propagate := false,
            handlers := lg.handlers ++
              [Handler.file path mode (logging_getattr level) file_formatter,
               Handler.stream LogLevel.INFO file_formatter] }
        path mode level suffix =
      Except.ok
        ({ lg with
             propagate := false,
             handlers := lg.handlers ++
               [Handler.file path mode (logging_getattr level) file_formatter,
                Handler.stream LogLevel.INFO file_formatter,
                Handler.file path mode (logging_getattr level) file_formatter,
                Handler.stream LogLevel.INFO file_formatter] },
         [FsOp.makedirs (osp_dirname path), FsOp.openFile path mode]) ∧
    (lg.handlers = [] →
      ((lg.handlers ++
          [Handler.file path mode (logging_getattr level) file_formatter,
           Handler.stream LogLevel.INFO file_formatter,
           Handler.file path mode (logging_getattr level) file_formatter,
           Handler.stream LogLevel.INFO file_formatter]).filter
        (fun h => h.isStream)).length = 2) := by
  refine ⟨log_to_file_rank0_eq ctx lg path mode level suffix hlvl hr hp,
    ?_, ?_⟩
  · have h2 := log_to_file_rank0_eq ctx
      { lg with
          propagate := false,
          handlers := lg.handlers ++
            [Handler.file path mode (logging_getattr level) file_formatter,
             Handler.stream LogLevel.INFO file_formatter] }
      path mode level suffix hlvl hr hp
    simpa [List.append_assoc] using h2
  · intro h0
    rw [h0]
    simp [List.filter, Handler.isStream]

/-- C7 witness: the double-attachment evaluated on a concrete fresh logger:
the second call leaves two stream handlers in the handler list. -/
theorem c7_witness :
    DistributedLogger.log_to_file ctx_uninit
        { lg0 with
            propagate := false,
            handlers := lg0.handlers ++
              [Handler.file "d/log.txt" "a" (logging_getattr "DEBUG")
                 file_formatter,
               Handler.stream LogLevel.INFO file_formatter] }
        "d/log.txt" "a" "DEBUG" none =
      Except.ok
        ({ lg0 with
             propagate := false,
             handlers := lg0.handlers ++
               [Handler.file "d/log.txt" "a" (logging_getattr "DEBUG")
                  file_formatter,
                Handler.stream LogLevel.INFO file_formatter,
                Handler.file "d/log.txt" "a" (logging_getattr "DEBUG")
                  file_formatter,
                Handler.stream LogLevel.INFO file_formatter] },
         [FsOp.makedirs (osp_dirname "d/log.txt"),
          FsOp.openFile "d/log.txt" "a"]) :=
  (c7_handler_append ctx_uninit lg0 "d/log.txt" "a" "DEBUG" none (by decide)
    (Or.inl rfl) (by decide)).2.1

/-- C8 counterexample: when the call stack cannot supply frame 2, the `info`
call raises the subscript error instead of emitting the message without the
caller prefix, contradicting the claim that the call does not fail. -/
theorem c8_counterexample :
    DistributedLogger.info (ctx_rank 0 0) lg0 [] "m" ParallelMode.GLOBAL
      none = Except.error PyError.indexError := rfl

/-- C8 (amended): if capturing the caller location fails — the stack has
fewer than three frames, so `stack[2]` raises — the leveled call fails with
that error and emits nothing; there is no degradation to emitting the
message without the prefix. -/
theorem c8_short_stack_raises (ctx : GlobalContext) (lg : PyLogger)
    (stack : List DistributedLogger.FrameInfo) (message : String)
    (pm : ParallelMode) (ranks : Option (List Nat))
    (h : stack.length < 3) :
    DistributedLogger.info ctx lg stack message pm ranks =
      Except.error PyError.indexError := by
  have h2 : stack[2]? = none := by
    rw [List.getElem?_eq_none_iff]
    omega
  simp [DistributedLogger.info, DistributedLogger.get_call_info, h2]

/-- C8 witness: the amended statement evaluated on a one-frame stack. -/
theorem c8_witness :
    DistributedLogger.info ctx_uninit lg0
      [{ filename := "a.py", lineno := 1, function := "f" }] "m"
      ParallelMode.GLOBAL none = Except.error PyError.indexError :=
  c8_short_stack_raises ctx_uninit lg0
    [{ filename := "a.py", lineno := 1, function := "f" }] "m"
    ParallelMode.GLOBAL none (by decide)

/-- C9: `log_to_file` validates the level string before the rank check, so
an invalid level raises the assertion error on every process — including a
process with nonzero global rank, whose call with a valid level would be a
silent no-op. -/
theorem c9_level_checked_before_rank (ctx : GlobalContext) (lg : PyLogger)
    (path mode level : String) (suffix : Option String)
    (h : level ∉ valid_logging_levels) :
    DistributedLogger.log_to_file ctx lg path mode level suffix =
      Except.error PyError.assertionError ∧
    (ctx.is_initialized ParallelMode.GLOBAL = true →
      ctx.get_global_rank ≠ 0 →
      DistributedLogger.log_to_file ctx lg path mode "INFO" suffix =
        Except.ok (lg, [])) := by
  refine ⟨?_, ?_⟩
  · simp [DistributedLogger.log_to_file, _check_valid_logging_level, h]
  · intro hi hnz
    exact log_to_file_nonzero_eq ctx lg path mode "INFO" suffix (by decide)
      hi hnz

/-- C9 witness: on a process with global rank 1, "TRACE" raises while "INFO"
is the silent no-op. -/
theorem c9_witness :
    DistributedLogger.log_to_file (ctx_rank 1 0) lg0 "log.txt" "a" "TRACE"
      none = Except.error PyError.assertionError ∧
    DistributedLogger.log_to_file (ctx_rank 1 0) lg0 "log.txt" "a" "INFO"
      none = Except.ok (lg0, []) :=
  ⟨(c9_level_checked_before_rank (ctx_rank 1 0) lg0 "log.txt" "a" "TRACE"
      none (by decide)).1,
   (c9_level_checked_before_rank (ctx_rank 1 0) lg0 "log.txt" "a" "TRACE"
      none (by decide)).2 rfl (by decide)⟩

/-- C10: on the rank-0 path with a valid level, a path whose directory
component is empty (a bare file name) makes `log_to_file` raise inside
`os.makedirs("")`; the error result of the state-passing embedding carries
no new logger state and no filesystem effect, so no handler is attached and
the propagation flag is untouched. -/
theorem c10_bare_filename_raises (ctx : GlobalContext) (lg : PyLogger)
    (path mode level : String) (suffix : Option String)
    (hlvl : level ∈ valid_logging_levels)
    (hr : ctx.is_initialized ParallelMode.GLOBAL = false ∨
      ctx.get_global_rank = 0)
    (hd : osp_dirname path = "") :
    DistributedLogger.log_to_file ctx lg path mode level suffix =
      Except.error PyError.fileNotFoundError := by
  have hrank :
      (if ctx.is_initialized ParallelMode.GLOBAL then ctx.get_global_rank
       else 0) = 0 := by
    rcases hr with h | h
    · rw [h]
      simp
    · by_cases hb : ctx.is_initialized ParallelMode.GLOBAL
      · rw [if_pos hb]
        exact h
      · rw [if_neg hb]
  simp [DistributedLogger.log_to_file, _check_valid_logging_level, hlvl,
        hrank, os_makedirs, hd]

/-- C10 witness: the bare file name "log.txt" raises on the rank-0 path. -/
theorem c10_witness :
    DistributedLogger.log_to_file ctx_uninit lg0 "log.txt" "a" "INFO" none =
      Except.error PyError.fileNotFoundError :=
  c10_bare_filename_raises ctx_uninit lg0 "log.txt" "a" "INFO" none
    (by decide) (Or.inl rfl) (by decide)

end ColossalLog
